import Mathlib

/-!
Verification of the resilient Instagram publishing bot (`app.py`):
a shallow embedding of its persisted-state readers, session manager,
control loop and web handlers, together with theorems settling the
specification claims.  External effects (platform client calls, HTTP
fetches, the HTML extractor) are modelled as oracles supplied in an
environment; file contents and in-memory state are passed explicitly.
-/

set_option autoImplicit false

namespace IgBot

/-! ## Constants (`CONFIG / PATHS` section of the source) -/

def DEFAULT_RSS : String := "https://www.montagneepaesi.com/feed/"

def HUB_LINK : String := "www.montagneepaesi.com/instagram"

def LATEST_IMG_PATH : String := "/data/images/latest.jpg"

/-! ## Bounded in-memory log buffer (`log` in the source)

`log` appends a timestamped line and, when the buffer exceeds 400 lines,
keeps only the last 400 (`logs[:] = logs[-400:]`).  `lastN n xs` models the
Python slice `xs[-n:]`. -/

def lastN {α : Type} (n : Nat) (xs : List α) : List α :=
  (xs.reverse.take n).reverse

/-- A rendered log line `[ts] msg`, with the timestamp supplied by the caller. -/
def log_line (now msg : String) : String :=
  "[" ++ now ++ "] " ++ msg

/-- One `log()` call: append the line, then truncate to the last 400 lines. -/
def log_step (logs : List String) (line : String) : List String :=
  if 400 < (logs ++ [line]).length then lastN 400 (logs ++ [line])
  else logs ++ [line]

/-- The `/logs` endpoint body: `jsonify({"lines": logs[-400:]})`. -/
def get_logs (logs : List String) : List String :=
  lastN 400 logs

theorem lastN_length_le {α : Type} (n : Nat) (xs : List α) :
    (lastN n xs).length ≤ n := by
  simp [lastN, List.length_take]

theorem lastN_of_length_le {α : Type} {n : Nat} {xs : List α}
    (h : xs.length ≤ n) : lastN n xs = xs := by
  have : xs.reverse.length ≤ n := by simpa using h
  simp [lastN, List.take_of_length_le this]

theorem lastN_lastN_append {α : Type} (n : Nat) (xs ys : List α) :
    lastN n (lastN n xs ++ ys) = lastN n (xs ++ ys) := by
  simp only [lastN, List.reverse_append, List.reverse_reverse]
  rw [List.take_append_eq_append_take, List.take_append_eq_append_take,
    List.take_take]
  rw [inf_eq_left.mpr (Nat.sub_le n ys.reverse.length)]

theorem log_step_length_le (logs : List String) (line : String) :
    (log_step logs line).length ≤ 400 := by
  unfold log_step
  split
  · exact lastN_length_le _ _
  · rename_i hlt
    simpa using Nat.le_of_not_lt hlt

theorem log_step_eq_lastN (logs : List String) (line : String) :
    log_step logs line = lastN 400 (logs ++ [line]) := by
  unfold log_step
  split
  · rfl
  · rename_i hlt
    exact (lastN_of_length_le (Nat.le_of_not_lt hlt)).symm

theorem foldl_log_step_eq (msgs : List String) :
    ∀ logs0 : List String, logs0.length ≤ 400 →
      List.foldl log_step logs0 msgs = lastN 400 (logs0 ++ msgs) := by
  induction msgs with
  | nil =>
      intro logs0 h
      simpa using (lastN_of_length_le h).symm
  | cons m ms ih =>
      intro logs0 h
      have h1 : (log_step logs0 m).length ≤ 400 := log_step_length_le _ _
      calc List.foldl log_step logs0 (m :: ms)
          = List.foldl log_step (log_step logs0 m) ms := rfl
        _ = lastN 400 (log_step logs0 m ++ ms) := ih _ h1
        _ = lastN 400 (lastN 400 (logs0 ++ [m]) ++ ms) := by
              rw [log_step_eq_lastN]
        _ = lastN 400 ((logs0 ++ [m]) ++ ms) := lastN_lastN_append _ _ _
        _ = lastN 400 (logs0 ++ (m :: ms)) := by
              rw [List.append_assoc]
              rfl

theorem lastN_append_of_length_eq {α : Type} {n : Nat} (xs ys : List α)
    (h : ys.length = n) : lastN n (xs ++ ys) = ys := by
  simp only [lastN, List.reverse_append]
  rw [List.take_append_eq_append_take]
  have h1 : ys.reverse.length = n := by simpa using h
  rw [← h1, List.take_length]
  simp [h1]

/-- Every append keeps the appended line in the buffer. -/
theorem mem_log_step_self (logs : List String) (line : String) :
    line ∈ log_step logs line := by
  unfold log_step
  split
  · rw [lastN, List.mem_reverse, List.reverse_append]
    simp only [List.reverse_cons, List.reverse_nil, List.nil_append,
      List.singleton_append]
    show line ∈ List.take (399 + 1) (line :: logs.reverse)
    rw [List.take_succ_cons]
    exact List.mem_cons_self _ _
  · simp

/-! ## Persisted-state readers (`_read_json`, `load_config`,
`get_last_posted_url`, `save_last_posted_url`)

A text file is either absent, present-but-unreadable (the `open`/`read`
raises) or readable with some content.  A JSON file can additionally hold
corrupt JSON, or JSON that is not an object.  String-valued dictionaries
model the config record. -/

inductive TextFile where
  | missing
  | unreadable
  | stored (content : String)
  deriving DecidableEq

inductive JsonVal where
  | jobj (fields : List (String × String))
  | jother
  deriving DecidableEq

inductive CfgFile where
  | missing
  | unreadable
  | corruptJson
  | stored (v : JsonVal)
  deriving DecidableEq

/-- `_read_json`: returns the parsed value, or the default on a missing
file, an unreadable file, or a JSON parse failure. -/
def read_json (f : CfgFile) (dflt : JsonVal) : JsonVal :=
  match f with
  | .stored v => v
  | _ => dflt

abbrev Dict := List (String × String)

def dget (d : Dict) (k dflt : String) : String :=
  match d.find? (fun p => p.1 == k) with
  | some p => p.2
  | none => dflt

def hasKey (d : Dict) (k : String) : Bool :=
  d.any (fun p => p.1 == k)

/-- Python `d[k] = v` on a string dict: replace in place or append. -/
def dset (d : Dict) (k v : String) : Dict :=
  if hasKey d k then d.map (fun p => if p.1 == k then (k, v) else p)
  else d ++ [(k, v)]

/-- Python `base.update(upd)`. -/
def dupdate (base upd : Dict) : Dict :=
  upd.foldl (fun b p => dset b p.1 p.2) base

/-- The defaults dict built at the top of `load_config`. -/
def base_config : Dict :=
  [("rss_url", DEFAULT_RSS), ("username", ""), ("password", ""), ("sessionid", "")]

/-- `load_config`: read the config JSON and overlay it on the defaults when
it is a JSON object. -/
def load_config (f : CfgFile) : Dict :=
  let cfg := read_json f (.jobj [])
  match cfg with
  | .jobj fields => dupdate base_config fields
  | .jother => base_config

/-- Characters stripped by Python `str.strip()`. -/
def trimChars (l : List Char) : List Char :=
  ((l.dropWhile Char.isWhitespace).reverse.dropWhile Char.isWhitespace).reverse

/-- Python `s.strip()`. -/
def pyStrip (s : String) : String :=
  ⟨trimChars s.data⟩

/-- Python `s.rstrip()`. -/
def pyRStrip (s : String) : String :=
  ⟨(s.data.reverse.dropWhile Char.isWhitespace).reverse⟩

/-- `get_last_posted_url`: empty string when the file is missing or the
read raises, otherwise the content with surrounding whitespace stripped. -/
def get_last_posted_url (f : TextFile) : String :=
  match f with
  | .stored s => pyStrip s
  | _ => ""

/-- `save_last_posted_url`: writes the stripped URL. -/
def save_last_posted_url (url : String) : TextFile :=
  .stored (pyStrip url)

theorem hasKey_dset (d : Dict) (k k' v : String) (h : hasKey d k = true) :
    hasKey (dset d k' v) k = true := by
  unfold dset
  split
  · unfold hasKey at h ⊢
    simp only [List.any_eq_true] at h ⊢
    obtain ⟨p, hp, hbeq⟩ := h
    refine ⟨if p.1 == k' then (k', v) else p, List.mem_map_of_mem _ hp, ?_⟩
    split
    · rename_i hk'
      have h1 : p.1 = k := by simpa using hbeq
      have h2 : p.1 = k' := by simpa using hk'
      simp [← h1, h2]
    · exact hbeq
  · unfold hasKey at h ⊢
    simp only [List.any_eq_true] at h ⊢
    obtain ⟨p, hp, hbeq⟩ := h
    exact ⟨p, List.mem_append_left _ hp, hbeq⟩

theorem hasKey_dupdate (upd : Dict) (k : String) :
    ∀ base : Dict, hasKey base k = true → hasKey (dupdate base upd) k = true := by
  induction upd with
  | nil => intro base h; simpa [dupdate] using h
  | cons p ps ih =>
      intro base h
      have h1 : hasKey (dset base p.1 p.2) k = true := hasKey_dset _ _ _ _ h
      simpa [dupdate] using ih _ h1

theorem hasKey_load_config (f : CfgFile) (k : String)
    (h : hasKey base_config k = true) : hasKey (load_config f) k = true := by
  unfold load_config
  cases f with
  | stored v =>
      cases v with
      | jobj fields => exact hasKey_dupdate _ _ _ h
      | jother => simpa [read_json] using h
  | missing => simpa [read_json] using h
  | unreadable => simpa [read_json] using h
  | corruptJson => simpa [read_json] using h

/-! ## Python exceptions and the CSRF classifier (`is_csrf_error`) -/

inductive PyErr where
  | twoFactor (msg : String)
  | challenge (msg : String)
  | loginRequired (msg : String)
  | generic (msg : String)
  deriving DecidableEq

/-- `str(e)` on a modelled exception. -/
def pyStr : PyErr → String
  | .twoFactor m => m
  | .challenge m => m
  | .loginRequired m => m
  | .generic m => m

def charsPre : List Char → List Char → Bool
  | [], _ => true
  | _ :: _, [] => false
  | a :: as, b :: bs => a == b && charsPre as bs

def charsSub : List Char → List Char → Bool
  | pat, [] => charsPre pat []
  | pat, s@(_ :: rest) => charsPre pat s || charsSub pat rest

/-- Python `pat in s` (substring containment). -/
def strContains (s pat : String) : Bool :=
  charsSub pat.data s.data

/-- `is_csrf_error`: both disjuncts of the source predicate over `str(e)`. -/
def is_csrf_error (e : PyErr) : Bool :=
  strContains (pyStr e) "CSRF token missing or incorrect" ||
  strContains (pyStr e) "\x22CSRF token missing or incorrect\x22"

/-! ## World state: files, metrics, logs -/

abbrev Blob := Nat

abbrev Dev := Nat

structure Files where
  config : CfgFile
  lastPost : TextFile
  igSettings : Option Blob
  deviceSeed : Option Dev
  deriving DecidableEq

structure Metrics where
  running : Bool
  lastTitle : String
  lastLink : String
  lastPublishedAt : String
  lastError : String
  postsCount : Nat
  deriving DecidableEq

structure W where
  files : Files
  logs : List String
  metrics : Metrics
  deriving DecidableEq

structure PosterState where
  loggedIn : Bool
  settings : Option Blob
  device : Option Dev
  deriving DecidableEq

/-- Oracle for one `Client` instance: the outcome of each external
platform call (`none` = the call returns, `some e` = it raises `e`). -/
structure ClientEnv where
  probe : Option PyErr
  cookieLogin : Option PyErr
  userpassLogin : Option PyErr
  currentSettings : Blob
  generatedDevice : Option Dev
  upload : Option PyErr
  deriving DecidableEq

structure Entry where
  link : String
  title : String
  deriving DecidableEq

/-- Observable calls made by the bot, in program order. -/
inductive Ev where
  | setUserAgent
  | setSettings (b : Blob)
  | setDeviceSettings (d : Dev)
  | genDevice
  | saveDeviceSeed (d : Dev)
  | timelineFeed
  | deleteIgSettings
  | cookieLoginCall (sid : String)
  | saveIgSettings (b : Blob)
  | credLogin (u p : String)
  | newPoster
  | fetchLatestEntry
  | fetchImageUrl (link : String)
  | fetchArticleExcerpt (link : String)
  | fetchFeedExcerpt
  | downloadImage (url : String)
  | photoUpload (path caption : String)
  | saveLastPosted (url : String)
  | saveConfigFile (c : Dict)
  | checkRunning
  | spawnWorker (u p rss sid : String)
  | sleepInterval
  deriving DecidableEq

def Ev.isCookieCall : Ev → Bool
  | .cookieLoginCall _ => true
  | _ => false

def Ev.isCredLogin : Ev → Bool
  | .credLogin _ _ => true
  | _ => false

def Ev.isUpload : Ev → Bool
  | .photoUpload _ _ => true
  | _ => false

def Ev.isFetchImage : Ev → Bool
  | .fetchImageUrl _ => true
  | _ => false

def Ev.isDownload : Ev → Bool
  | .downloadImage _ => true
  | _ => false

def Ev.isGenDevice : Ev → Bool
  | .genDevice => true
  | _ => false

def wlog (now msg : String) (w : W) : W :=
  {w with logs := log_step w.logs (log_line now msg)}

def set_last_error (s : String) (w : W) : W :=
  {w with metrics := {w.metrics with lastError := s}}

def set_running (b : Bool) (w : W) : W :=
  {w with metrics := {w.metrics with running := b}}

def delete_ig_settings (w : W) : W :=
  {w with files := {w.files with igSettings := none}}

def save_ig_settings (b : Blob) (w : W) : W :=
  {w with files := {w.files with igSettings := some b}}

/-! ## `InstagramPoster` operations -/

/-- `InstagramPoster.__init__`: set the mobile user agent, then either apply
the persisted `device_settings` unchanged, or generate a device identity via
`set_device` and persist the resulting `device_settings` when non-empty
(`c.generatedDevice = none` models an empty result or a raised exception,
in which case the `try` block persists nothing). -/
def init_poster (c : ClientEnv) (w : W) : PosterState × W × List Ev :=
  let ps : PosterState := {loggedIn := false, settings := none, device := none}
  match w.files.deviceSeed with
  | some d =>
      ({ps with device := some d}, w, [Ev.setUserAgent, Ev.setDeviceSettings d])
  | none =>
      match c.generatedDevice with
      | some g =>
          ({ps with device := some g},
           {w with files := {w.files with deviceSeed := some g}},
           [Ev.setUserAgent, Ev.genDevice, Ev.saveDeviceSeed g])
      | none => (ps, w, [Ev.setUserAgent, Ev.genDevice])

/-- `try_restore_settings_session`. -/
def try_restore_settings_session (c : ClientEnv) (now : String)
    (ps : PosterState) (w : W) : Bool × PosterState × W × List Ev :=
  match w.files.igSettings with
  | none => (false, ps, w, [])
  | some s =>
      match c.probe with
      | none =>
          (true, {ps with settings := some s, loggedIn := true},
           wlog now "♻️ Sessione Instagram ripristinata (ig_settings.json)." w,
           [Ev.setSettings s, Ev.timelineFeed])
      | some e =>
          (false, {ps with settings := some s, loggedIn := false},
           delete_ig_settings
             (wlog now ("⚠️ Sessione salvata non valida, la resetto: " ++ pyStr e) w),
           [Ev.setSettings s, Ev.timelineFeed, Ev.deleteIgSettings])

/-- `login_with_sessionid`. -/
def login_with_sessionid (c : ClientEnv) (now sid : String)
    (ps : PosterState) (w : W) : Bool × PosterState × W × List Ev :=
  if pyStrip sid = "" then (false, ps, w, [])
  else
    match c.cookieLogin with
    | some e =>
        (false, {ps with loggedIn := false},
         wlog now ("⚠️ Login via sessionid fallito: " ++ pyStr e) w,
         [Ev.cookieLoginCall (pyStrip sid)])
    | none =>
        (true, {ps with loggedIn := true, settings := some c.currentSettings},
         wlog now "✅ Login via sessionid completato (cookie web)."
           (save_ig_settings c.currentSettings w),
         [Ev.cookieLoginCall (pyStrip sid), Ev.timelineFeed,
          Ev.saveIgSettings c.currentSettings])

/-- `login_with_userpass`: raises `LoginRequired` on missing credentials,
otherwise performs `cl.login(..., relogin=True)`, persists the session
settings and warms up.  `none` = returned, `some e` = raised. -/
def login_with_userpass (c : ClientEnv) (now u p : String)
    (ps : PosterState) (w : W) : Option PyErr × PosterState × W × List Ev :=
  if u = "" ∨ p = "" then
    (some (.loginRequired "Username/password mancanti."), ps, w, [])
  else
    match c.userpassLogin with
    | some e => (some e, ps, w, [Ev.credLogin u p])
    | none =>
        (none, {ps with loggedIn := true, settings := some c.currentSettings},
         wlog now "✅ Login con username/password completato e sessione salvata."
           (save_ig_settings c.currentSettings w),
         [Ev.credLogin u p, Ev.saveIgSettings c.currentSettings, Ev.timelineFeed])

/-- `InstagramPoster.login`: restore, then (if a sessionid is supplied) the
cookie path, then the credential path. -/
def login (c : ClientEnv) (now u p sid : String) (ps : PosterState) (w : W) :
    Option PyErr × PosterState × W × List Ev :=
  let w0 := wlog now "🔐 Login Instagram in corso..." w
  match try_restore_settings_session c now ps w0 with
  | (true, ps1, w1, e1) => (none, ps1, w1, e1)
  | (false, ps1, w1, e1) =>
      if sid ≠ "" then
        match login_with_sessionid c now sid ps1 w1 with
        | (true, ps2, w2, e2) => (none, ps2, w2, e1 ++ e2)
        | (false, ps2, w2, e2) =>
            match login_with_userpass c now u p ps2 w2 with
            | (r, ps3, w3, e3) => (r, ps3, w3, e1 ++ e2 ++ e3)
      else
        match login_with_userpass c now u p ps1 w1 with
        | (r, ps3, w3, e3) => (r, ps3, w3, e1 ++ e3)

/-- `post_photo`: `ensure_login`, the upload call, then persist settings. -/
def post_photo (c : ClientEnv) (path caption : String)
    (ps : PosterState) (w : W) : Option PyErr × PosterState × W × List Ev :=
  if ps.loggedIn = false then (some (.loginRequired "Non loggato."), ps, w, [])
  else
    match c.upload with
    | some e => (some e, ps, w, [Ev.photoUpload path caption])
    | none =>
        (none, ps, save_ig_settings c.currentSettings w,
         [Ev.photoUpload path caption, Ev.saveIgSettings c.currentSettings])

/-! ## Branch equations for the session-manager operations -/

section BranchLemmas

variable {c c2 : ClientEnv} {now u p sid path cap : String}
variable {ps ps1 ps2 ps3 : PosterState} {w w1 w2 w3 : W}
variable {b : Blob} {d g : Dev} {e : PyErr} {r : Option PyErr}
variable {e1 e2 e3 : List Ev}

theorem try_restore_absent (h : w.files.igSettings = none) :
    try_restore_settings_session c now ps w = (false, ps, w, []) := by
  unfold try_restore_settings_session
  rw [h]

theorem try_restore_ok (hb : w.files.igSettings = some b)
    (hp : c.probe = none) :
    try_restore_settings_session c now ps w =
      (true, {ps with settings := some b, loggedIn := true},
       wlog now "♻️ Sessione Instagram ripristinata (ig_settings.json)." w,
       [Ev.setSettings b, Ev.timelineFeed]) := by
  unfold try_restore_settings_session
  rw [hb, hp]

theorem try_restore_fail (hb : w.files.igSettings = some b)
    (hp : c.probe = some e) :
    try_restore_settings_session c now ps w =
      (false, {ps with settings := some b, loggedIn := false},
       delete_ig_settings
         (wlog now ("⚠️ Sessione salvata non valida, la resetto: " ++ pyStr e) w),
       [Ev.setSettings b, Ev.timelineFeed, Ev.deleteIgSettings]) := by
  unfold try_restore_settings_session
  rw [hb, hp]

theorem lws_blank (h : pyStrip sid = "") :
    login_with_sessionid c now sid ps w = (false, ps, w, []) := by
  unfold login_with_sessionid
  rw [if_pos h]

theorem lws_ok (h : ¬ pyStrip sid = "") (hc : c.cookieLogin = none) :
    login_with_sessionid c now sid ps w =
      (true, {ps with loggedIn := true, settings := some c.currentSettings},
       wlog now "✅ Login via sessionid completato (cookie web)."
         (save_ig_settings c.currentSettings w),
       [Ev.cookieLoginCall (pyStrip sid), Ev.timelineFeed,
        Ev.saveIgSettings c.currentSettings]) := by
  unfold login_with_sessionid
  rw [if_neg h, hc]

theorem lws_fail (h : ¬ pyStrip sid = "") (hc : c.cookieLogin = some e) :
    login_with_sessionid c now sid ps w =
      (false, {ps with loggedIn := false},
       wlog now ("⚠️ Login via sessionid fallito: " ++ pyStr e) w,
       [Ev.cookieLoginCall (pyStrip sid)]) := by
  unfold login_with_sessionid
  rw [if_neg h, hc]

theorem lwu_missing (h : u = "" ∨ p = "") :
    login_with_userpass c now u p ps w =
      (some (.loginRequired "Username/password mancanti."), ps, w, []) := by
  unfold login_with_userpass
  rw [if_pos h]

theorem lwu_fail (h : ¬ (u = "" ∨ p = "")) (hl : c.userpassLogin = some e) :
    login_with_userpass c now u p ps w = (some e, ps, w, [Ev.credLogin u p]) := by
  unfold login_with_userpass
  rw [if_neg h, hl]

theorem lwu_ok (h : ¬ (u = "" ∨ p = "")) (hl : c.userpassLogin = none) :
    login_with_userpass c now u p ps w =
      (none, {ps with loggedIn := true, settings := some c.currentSettings},
       wlog now "✅ Login con username/password completato e sessione salvata."
         (save_ig_settings c.currentSettings w),
       [Ev.credLogin u p, Ev.saveIgSettings c.currentSettings,
        Ev.timelineFeed]) := by
  unfold login_with_userpass
  rw [if_neg h, hl]

theorem post_photo_not_logged (h : ps.loggedIn = false) :
    post_photo c path cap ps w =
      (some (.loginRequired "Non loggato."), ps, w, []) := by
  unfold post_photo
  rw [if_pos h]

theorem post_photo_fail (h : ps.loggedIn = true) (hu : c.upload = some e) :
    post_photo c path cap ps w = (some e, ps, w, [Ev.photoUpload path cap]) := by
  unfold post_photo
  rw [if_neg (by simp [h]), hu]

theorem post_photo_ok (h : ps.loggedIn = true) (hu : c.upload = none) :
    post_photo c path cap ps w =
      (none, ps, save_ig_settings c.currentSettings w,
       [Ev.photoUpload path cap, Ev.saveIgSettings c.currentSettings]) := by
  unfold post_photo
  rw [if_neg (by simp [h]), hu]

theorem init_poster_seeded (hd : w.files.deviceSeed = some d) :
    init_poster c w =
      ({loggedIn := false, settings := none, device := some d}, w,
       [Ev.setUserAgent, Ev.setDeviceSettings d]) := by
  unfold init_poster
  rw [hd]

theorem init_poster_gen (hn : w.files.deviceSeed = none)
    (hg : c.generatedDevice = some g) :
    init_poster c w =
      ({loggedIn := false, settings := none, device := some g},
       {w with files := {w.files with deviceSeed := some g}},
       [Ev.setUserAgent, Ev.genDevice, Ev.saveDeviceSeed g]) := by
  unfold init_poster
  rw [hn, hg]

theorem init_poster_gen_empty (hn : w.files.deviceSeed = none)
    (hg : c.generatedDevice = none) :
    init_poster c w =
      ({loggedIn := false, settings := none, device := none}, w,
       [Ev.setUserAgent, Ev.genDevice]) := by
  unfold init_poster
  rw [hn, hg]

theorem login_of_restore_true
    (h : try_restore_settings_session c now ps
      (wlog now "🔐 Login Instagram in corso..." w) = (true, ps1, w1, e1)) :
    login c now u p sid ps w = (none, ps1, w1, e1) := by
  simp only [login]
  rw [h]

theorem login_of_restore_false_sid_empty
    (h : try_restore_settings_session c now ps
      (wlog now "🔐 Login Instagram in corso..." w) = (false, ps1, w1, e1))
    (hs : sid = "")
    (h2 : login_with_userpass c now u p ps1 w1 = (r, ps3, w3, e3)) :
    login c now u p sid ps w = (r, ps3, w3, e1 ++ e3) := by
  simp only [login, h]
  rw [if_neg (by simp [hs]), h2]

theorem login_of_cookie_true
    (h : try_restore_settings_session c now ps
      (wlog now "🔐 Login Instagram in corso..." w) = (false, ps1, w1, e1))
    (hs : sid ≠ "")
    (h2 : login_with_sessionid c now sid ps1 w1 = (true, ps2, w2, e2)) :
    login c now u p sid ps w = (none, ps2, w2, e1 ++ e2) := by
  simp only [login, h]
  rw [if_pos hs, h2]

theorem login_of_cookie_false
    (h : try_restore_settings_session c now ps
      (wlog now "🔐 Login Instagram in corso..." w) = (false, ps1, w1, e1))
    (hs : sid ≠ "")
    (h2 : login_with_sessionid c now sid ps1 w1 = (false, ps2, w2, e2))
    (h3 : login_with_userpass c now u p ps2 w2 = (r, ps3, w3, e3)) :
    login c now u p sid ps w = (r, ps3, w3, e1 ++ e2 ++ e3) := by
  simp only [login, h]
  rw [if_pos hs]
  simp only [h2]
  rw [h3]

end BranchLemmas

/-! ## Sample fixtures used by witnesses -/

def mSample : Metrics :=
  {running := false, lastTitle := "", lastLink := "", lastPublishedAt := "",
   lastError := "", postsCount := 0}

def filesEmpty : Files :=
  {config := .missing, lastPost := .missing, igSettings := none, deviceSeed := none}

def wEmpty : W := {files := filesEmpty, logs := [], metrics := mSample}

def wBlob : W :=
  {files := {filesEmpty with igSettings := some 5}, logs := [], metrics := mSample}

def psEmpty : PosterState := {loggedIn := false, settings := none, device := none}

def cOk : ClientEnv :=
  {probe := none, cookieLogin := none, userpassLogin := none,
   currentSettings := 7, generatedDevice := some 3, upload := none}

def cProbeFail : ClientEnv :=
  {cOk with probe := some (.generic "401")}

/-! ## Claims about the session manager -/

/-- Claim C5: `try_restore_settings_session` returns false with no side
effects when no session blob is persisted; with a blob present it applies
it, performs exactly one timeline-feed probe, and on probe success marks
the manager authenticated and returns true, while on probe failure it
deletes the persisted blob, leaves the manager unauthenticated, and
returns false. -/
theorem claim_C5 (c : ClientEnv) (now : String) (ps : PosterState) (w : W) :
    (w.files.igSettings = none →
      try_restore_settings_session c now ps w = (false, ps, w, [])) ∧
    (∀ b, w.files.igSettings = some b →
      ((try_restore_settings_session c now ps w).2.2.2.countP
          (fun ev => ev == Ev.timelineFeed) = 1) ∧
      Ev.setSettings b ∈ (try_restore_settings_session c now ps w).2.2.2 ∧
      (c.probe = none →
        (try_restore_settings_session c now ps w).1 = true ∧
        (try_restore_settings_session c now ps w).2.1.loggedIn = true ∧
        (try_restore_settings_session c now ps w).2.2.1.files.igSettings = some b) ∧
      (∀ e, c.probe = some e →
        (try_restore_settings_session c now ps w).1 = false ∧
        (try_restore_settings_session c now ps w).2.1.loggedIn = false ∧
        (try_restore_settings_session c now ps w).2.2.1.files.igSettings = none)) := by
  refine ⟨fun h => try_restore_absent h, fun b hb => ?_⟩
  cases hp : c.probe with
  | none =>
      rw [try_restore_ok hb hp]
      exact ⟨rfl, by simp, fun _ => ⟨rfl, rfl, hb⟩,
        fun e he => Option.noConfusion he⟩
  | some e0 =>
      rw [try_restore_fail hb hp]
      exact ⟨rfl, by simp, fun h => Option.noConfusion h,
        fun e he => ⟨rfl, rfl, rfl⟩⟩

theorem claim_C5_witness :
    try_restore_settings_session cOk "t" psEmpty wEmpty = (false, psEmpty, wEmpty, []) ∧
    (try_restore_settings_session cProbeFail "t" psEmpty wBlob).2.2.1.files.igSettings
      = none :=
  ⟨(claim_C5 cOk "t" psEmpty wEmpty).1 rfl,
   (((claim_C5 cProbeFail "t" psEmpty wBlob).2 5 rfl).2.2.2 (.generic "401") rfl).2.2⟩

/-- Claim C6: `login_with_sessionid` is a no-op returning false for an
empty or whitespace cookie; for a non-empty cookie it applies the cookie,
performs the timeline-feed probe, persists the session blob only on
success, and on failure logs the error and returns false without raising
(the return type is `Bool`, so the caller falls through to the
credential method). -/
theorem claim_C6 (c : ClientEnv) (now sid : String) (ps : PosterState) (w : W) :
    (pyStrip sid = "" → login_with_sessionid c now sid ps w = (false, ps, w, [])) ∧
    (pyStrip sid ≠ "" →
      (c.cookieLogin = none →
        (login_with_sessionid c now sid ps w).1 = true ∧
        (login_with_sessionid c now sid ps w).2.1.loggedIn = true ∧
        Ev.cookieLoginCall (pyStrip sid) ∈ (login_with_sessionid c now sid ps w).2.2.2 ∧
        Ev.timelineFeed ∈ (login_with_sessionid c now sid ps w).2.2.2 ∧
        (login_with_sessionid c now sid ps w).2.2.1.files.igSettings
          = some c.currentSettings) ∧
      (∀ e, c.cookieLogin = some e →
        (login_with_sessionid c now sid ps w).1 = false ∧
        (login_with_sessionid c now sid ps w).2.1.loggedIn = false ∧
        (login_with_sessionid c now sid ps w).2.2.1.files.igSettings
          = w.files.igSettings ∧
        log_line now ("⚠️ Login via sessionid fallito: " ++ pyStr e)
          ∈ (login_with_sessionid c now sid ps w).2.2.1.logs)) := by
  refine ⟨fun h => lws_blank h, fun h => ⟨fun hc => ?_, fun e he => ?_⟩⟩
  · rw [lws_ok h hc]
    exact ⟨rfl, rfl, by simp, by simp, rfl⟩
  · rw [lws_fail h he]
    exact ⟨rfl, rfl, rfl, mem_log_step_self _ _⟩

theorem claim_C6_witness :
    login_with_sessionid cOk "t" "  " psEmpty wEmpty = (false, psEmpty, wEmpty, []) ∧
    (login_with_sessionid cOk "t" "abc" psEmpty wEmpty).2.2.1.files.igSettings
      = some 7 :=
  ⟨(claim_C6 cOk "t" "  " psEmpty wEmpty).1 rfl,
   (((claim_C6 cOk "t" "abc" psEmpty wEmpty).2 (by decide)).1 rfl).2.2.2.2⟩

/-- Claim C2: `login` tries restore, then the session cookie (attempted
only when a non-empty sessionid is supplied), then credentials, stopping
at the first success; when the restore succeeds neither the cookie call
nor the credential login is ever invoked. -/
theorem claim_C2 (c : ClientEnv) (now u p sid : String) (ps : PosterState) (w : W) :
    (∀ b, w.files.igSettings = some b → c.probe = none →
      (login c now u p sid ps w).1 = none ∧
      (login c now u p sid ps w).2.2.2.countP Ev.isCookieCall = 0 ∧
      (login c now u p sid ps w).2.2.2.countP Ev.isCredLogin = 0) ∧
    (sid = "" →
      (login c now u p sid ps w).2.2.2.countP Ev.isCookieCall = 0) ∧
    (w.files.igSettings = none → sid ≠ "" → pyStrip sid ≠ "" →
      c.cookieLogin = none →
      (login c now u p sid ps w).1 = none ∧
      (login c now u p sid ps w).2.2.2.countP Ev.isCredLogin = 0 ∧
      (login c now u p sid ps w).2.2.2.countP Ev.isCookieCall = 1) ∧
    (∀ b er ec, w.files.igSettings = some b → c.probe = some er →
      sid ≠ "" → pyStrip sid ≠ "" → c.cookieLogin = some ec →
      u ≠ "" → p ≠ "" → c.userpassLogin = none →
      (login c now u p sid ps w).1 = none ∧
      (login c now u p sid ps w).2.2.2 =
        [Ev.setSettings b, Ev.timelineFeed, Ev.deleteIgSettings,
         Ev.cookieLoginCall (pyStrip sid), Ev.credLogin u p,
         Ev.saveIgSettings c.currentSettings, Ev.timelineFeed]) := by
  refine ⟨fun b hb hp => ?_, fun hs => ?_, fun hig hsid htrim hc => ?_,
    fun b er ec hb hp hsid htrim hc hu hpw hl => ?_⟩
  · rw [login_of_restore_true (try_restore_ok hb hp)]
    exact ⟨rfl, rfl, rfl⟩
  · rcases hig : w.files.igSettings with _ | b
    · by_cases hup : u = "" ∨ p = ""
      · rw [login_of_restore_false_sid_empty (try_restore_absent hig) hs
          (lwu_missing hup)]
        rfl
      · cases hl : c.userpassLogin with
        | none =>
            rw [login_of_restore_false_sid_empty (try_restore_absent hig) hs
              (lwu_ok hup hl)]
            rfl
        | some e =>
            rw [login_of_restore_false_sid_empty (try_restore_absent hig) hs
              (lwu_fail hup hl)]
            rfl
    · cases hp : c.probe with
      | none =>
          rw [login_of_restore_true (try_restore_ok hig hp)]
          rfl
      | some e =>
          by_cases hup : u = "" ∨ p = ""
          · rw [login_of_restore_false_sid_empty (try_restore_fail hig hp) hs
              (lwu_missing hup)]
            rfl
          · cases hl : c.userpassLogin with
            | none =>
                rw [login_of_restore_false_sid_empty (try_restore_fail hig hp) hs
                  (lwu_ok hup hl)]
                rfl
            | some e2 =>
                rw [login_of_restore_false_sid_empty (try_restore_fail hig hp) hs
                  (lwu_fail hup hl)]
                rfl
  · rw [login_of_cookie_true (try_restore_absent hig) hsid (lws_ok htrim hc)]
    exact ⟨rfl, rfl, rfl⟩
  · have hnup : ¬ (u = "" ∨ p = "") := fun h => h.elim hu hpw
    rw [login_of_cookie_false (try_restore_fail hb hp) hsid (lws_fail htrim hc)
      (lwu_ok hnup hl)]
    exact ⟨rfl, rfl⟩

theorem claim_C2_witness :
    (login cOk "t" "u" "pw" "s" psEmpty wBlob).1 = none ∧
    (login cOk "t" "u" "pw" "s" psEmpty wBlob).2.2.2.countP Ev.isCredLogin = 0 :=
  ⟨((claim_C2 cOk "t" "u" "pw" "s" psEmpty wBlob).1 5 rfl rfl).1,
   ((claim_C2 cOk "t" "u" "pw" "s" psEmpty wBlob).1 5 rfl rfl).2.2⟩

/-- Claim C7: on construction a persisted non-empty `device_settings`
record is applied unchanged, otherwise one is generated and persisted
before any login attempt; two constructions in sequence reuse the identity
persisted by the first and never generate a second one. -/
theorem claim_C7 (c c2 : ClientEnv) (w : W) :
    (∀ d, w.files.deviceSeed = some d →
      (init_poster c w).1.device = some d ∧
      Ev.setDeviceSettings d ∈ (init_poster c w).2.2 ∧
      (init_poster c w).2.2.countP Ev.isGenDevice = 0 ∧
      (init_poster c w).2.1 = w) ∧
    (∀ g, w.files.deviceSeed = none → c.generatedDevice = some g →
      (init_poster c w).1.device = some g ∧
      (init_poster c w).2.1.files.deviceSeed = some g ∧
      Ev.saveDeviceSeed g ∈ (init_poster c w).2.2 ∧
      (init_poster c w).2.2.countP Ev.isCredLogin = 0) ∧
    (∀ g, w.files.deviceSeed = none → c.generatedDevice = some g →
      (init_poster c2 (init_poster c w).2.1).1.device = some g ∧
      Ev.setDeviceSettings g ∈ (init_poster c2 (init_poster c w).2.1).2.2 ∧
      (init_poster c2 (init_poster c w).2.1).2.2.countP Ev.isGenDevice = 0) := by
  refine ⟨fun d hd => ?_, fun g hn hg => ?_, fun g hn hg => ?_⟩
  · rw [init_poster_seeded hd]
    exact ⟨rfl, by simp, rfl, rfl⟩
  · rw [init_poster_gen hn hg]
    exact ⟨rfl, rfl, by simp, rfl⟩
  · rw [init_poster_gen hn hg]
    rw [init_poster_seeded (show (({w with files := {w.files with deviceSeed := some g}} : W)).files.deviceSeed = some g from rfl)]
    exact ⟨rfl, by simp, rfl⟩

theorem claim_C7_witness :
    (init_poster cOk (init_poster cOk wEmpty).2.1).1.device = some 3 ∧
    (init_poster cOk (init_poster cOk wEmpty).2.1).2.2.countP Ev.isGenDevice = 0 :=
  ⟨((claim_C7 cOk cOk wEmpty).2.2 3 rfl rfl).1,
   ((claim_C7 cOk cOk wEmpty).2.2 3 rfl rfl).2.2⟩

/-- Claim C8: the log buffer never exceeds 400 lines, always holds exactly
the most recently appended lines in append order (`lastN 400`), the `/logs`
endpoint returns exactly that window, and appending 500 lines to an empty
buffer leaves exactly the last 400 of them. -/
theorem claim_C8 (msgs : List String) :
    (List.foldl log_step [] msgs).length ≤ 400 ∧
    List.foldl log_step [] msgs = lastN 400 msgs ∧
    get_logs (List.foldl log_step [] msgs) = lastN 400 msgs ∧
    (msgs.length = 500 → List.foldl log_step [] msgs = msgs.drop 100) := by
  have hfold : List.foldl log_step [] msgs = lastN 400 msgs := by
    simpa using foldl_log_step_eq msgs [] (by simp)
  have hlen : (List.foldl log_step [] msgs).length ≤ 400 := by
    rw [hfold]
    exact lastN_length_le _ _
  refine ⟨hlen, hfold, ?_, ?_⟩
  · rw [hfold]
    unfold get_logs
    exact lastN_of_length_le (lastN_length_le _ _)
  · intro h500
    rw [hfold]
    have hsplit : lastN 400 msgs = lastN 400 (msgs.take 100 ++ msgs.drop 100) := by
      rw [List.take_append_drop]
    rw [hsplit]
    exact lastN_append_of_length_eq _ _ (by simp [List.length_drop, h500])

theorem claim_C8_witness :
    List.foldl log_step [] ((List.range 500).map toString) =
      ((List.range 500).map toString).drop 100 :=
  (claim_C8 ((List.range 500).map toString)).2.2.2 (by simp)

/-- Claim C10: `load_config` and `get_last_posted_url` are total; on a
missing, unreadable, corrupt or non-object config file `load_config`
returns exactly the four-key defaults dict, on any file it keeps all four
keys present, and `get_last_posted_url` returns the empty string for a
missing or unreadable file and the stripped content otherwise. -/
theorem claim_C10 (f : CfgFile) (t : TextFile) :
    ((f = .missing ∨ f = .unreadable ∨ f = .corruptJson ∨ f = .stored .jother) →
      load_config f = base_config) ∧
    hasKey (load_config f) "rss_url" = true ∧
    hasKey (load_config f) "username" = true ∧
    hasKey (load_config f) "password" = true ∧
    hasKey (load_config f) "sessionid" = true ∧
    dget base_config "rss_url" "" = DEFAULT_RSS ∧
    dget base_config "username" "" = "" ∧
    dget base_config "password" "" = "" ∧
    dget base_config "sessionid" "" = "" ∧
    (t = .missing ∨ t = .unreadable → get_last_posted_url t = "") ∧
    (∀ s, t = .stored s → get_last_posted_url t = pyStrip s) := by
  refine ⟨?_, hasKey_load_config f _ rfl, hasKey_load_config f _ rfl,
    hasKey_load_config f _ rfl, hasKey_load_config f _ rfl,
    rfl, rfl, rfl, rfl, ?_, ?_⟩
  · rintro (rfl | rfl | rfl | rfl) <;> rfl
  · rintro (rfl | rfl) <;> rfl
  · rintro s rfl
    rfl

theorem claim_C10_witness :
    load_config .corruptJson = base_config ∧
    get_last_posted_url (.stored " x \n") = "x" :=
  ⟨(claim_C10 .corruptJson .missing).1 (Or.inr (Or.inr (Or.inl rfl))),
   ((claim_C10 .corruptJson (.stored " x \n")).2.2.2.2.2.2.2.2.2.2
      " x \n" rfl).trans rfl⟩

/-! ## Text helpers (`clean_text`, `clamp_caption`, `hashtags_from_title`)

`clean_text` delegates the HTML-to-text step to BeautifulSoup; that step is
an oracle (`soup`), the whitespace collapsing and stripping are modelled. -/

def squeezeWs : Bool → List Char → List Char
  | _, [] => []
  | prevWs, ch :: cs =>
      if ch.isWhitespace then
        if prevWs then squeezeWs true cs else ' ' :: squeezeWs true cs
      else ch :: squeezeWs false cs

/-- `clean_text`: empty in, empty out; otherwise soup, collapse whitespace
runs to single spaces, strip. -/
def clean_text (soup : String → String) (s : String) : String :=
  if s = "" then ""
  else pyStrip ⟨squeezeWs false (soup s).data⟩

/-- `clamp_caption`. -/
def clamp_caption (caption : String) (max_len : Nat) : String :=
  let caption := pyStrip caption
  if caption.length ≤ max_len then caption
  else pyRStrip ⟨caption.data.take (max_len - 1)⟩ ++ "…"

def stopwords : List String :=
  ["di","a","da","in","con","su","per","tra","fra","il","lo","la","i","gli","le",
   "un","una","uno","e","è","del","della","dei","delle","al","allo","alla","agli",
   "alle","ai","dal","dallo","dalla","dai","dalle","nel","nello","nella","nei","nelle"]

/-- Python `str.lower()` restricted to the characters of the title
letter class. -/
def pyLowerChar (ch : Char) : Char :=
  if ch = 'À' then 'à' else if ch = 'È' then 'è' else if ch = 'É' then 'é'
  else if ch = 'Ì' then 'ì' else if ch = 'Ò' then 'ò' else if ch = 'Ù' then 'ù'
  else ch.toLower

/-- The character class of the word regex `[a-zA-Zàèéìòù ÀÈÉÌÒÙ]`. -/
def isTitleLetter (ch : Char) : Bool :=
  ch.isAlpha || ['à','è','é','ì','ò','ù','À','È','É','Ì','Ò','Ù'].contains ch

/-- Maximal runs of letter-class characters (`re.findall` on the word
regex). -/
def letterRuns : List Char → List Char → List (List Char)
  | [], acc => if acc.isEmpty then [] else [acc.reverse]
  | ch :: cs, acc =>
      if isTitleLetter ch then letterRuns cs (ch :: acc)
      else if acc.isEmpty then letterRuns cs [] else acc.reverse :: letterRuns cs []

/-- `hashtags_from_title`. -/
def hashtags_from_title (title : String) (max_tags : Nat) : String :=
  let words := (letterRuns (title.data.map pyLowerChar) []).map
    (fun l => (⟨l⟩ : String))
  let tags := (words.filter
      (fun w2 => 4 ≤ w2.length && !(stopwords.contains w2))).map
    (fun w2 => "#" ++ w2)
  let fixed := ["#montagneepaesi", "#news", "#notizie", "#ultimora", "#flashnews"]
  String.intercalate " " (fixed ++ tags.take max_tags)

/-- The caption f-string of the loop followed by `clamp_caption(..., 2200)`. -/
def compose_caption (title excerpt : String) : String :=
  clamp_caption
    (title ++ "\n\n" ++ excerpt ++ "\n\n" ++ hashtags_from_title title 8 ++
     "\n\n👉 " ++ HUB_LINK) 2200

/-! ## One iteration of `bot_loop` -/

/-- Result of `get_latest_entry`: the call raised, the feed was empty
(`None`), or it returned the newest entry. -/
inductive FeedResult where
  | raised (e : PyErr)
  | noEntry
  | entry (ent : Entry)

/-- How the `try` body of one loop iteration ends: an early
`time.sleep; continue`, normal completion, or a raised exception that the
cycle-boundary handler catches. -/
inductive BodyExit where
  | earlyContinue
  | completed
  | raised (e : PyErr)

/-- Oracle for the per-cycle external calls: feed fetch, HTML extraction,
image resolution, download, plus the client environment used by the fresh
poster constructed during CSRF recovery. -/
structure CycleEnv where
  latestEntry : FeedResult
  soupText : String → String
  imageUrl : String → String
  articleExcerpt : String → String
  entryExcerpt : String
  downloadOk : Bool
  now : String
  recoveryEnv : ClientEnv

/-- The excerpt used by the cycle: article-page extraction with fallback to
the feed entry's own content. -/
def cycle_excerpt (env : CycleEnv) (link : String) : String :=
  if env.articleExcerpt link = "" then env.entryExcerpt else env.articleExcerpt link

/-- Lines 517–524 of the source: log success, persist the last-posted
marker, update the metrics. -/
def record_success (now link title : String) (ps : PosterState) (w : W)
    (evs : List Ev) : PosterState × W × List Ev × BodyExit :=
  let w1 := wlog now "✅ Pubblicato su Instagram." w
  let w2 := {w1 with files := {w1.files with lastPost := save_last_posted_url link}}
  let w3 := {w2 with metrics := {w2.metrics with
    lastTitle := title, lastLink := link, lastPublishedAt := now,
    postsCount := w2.metrics.postsCount + 1, lastError := ""}}
  (ps, w3, evs ++ [Ev.saveLastPosted link], .completed)

/-- The upload attempt with its CSRF-recovery handler (lines 503–515),
followed by the success recording. -/
def publish_stage (c : ClientEnv) (env : CycleEnv) (u p link title caption : String)
    (evs1 : List Ev) (ps : PosterState) (w2 : W) : PosterState × W × List Ev × BodyExit :=
  let pp := post_photo c LATEST_IMG_PATH caption ps w2
  match pp.1 with
  | none => record_success env.now link title pp.2.1 pp.2.2.1 (evs1 ++ pp.2.2.2)
  | some e =>
      if is_csrf_error e then
        let w4 := wlog env.now
          "⚠️ CSRF durante upload: resetto sessione instagrapi e riprovo 1 volta con user/pass..." pp.2.2.1
        let w5 := delete_ig_settings w4
        let ini := init_poster env.recoveryEnv w5
        let lr := login_with_userpass env.recoveryEnv env.now u p ini.1 ini.2.1
        match lr.1 with
        | some e2 =>
            (lr.2.1, lr.2.2.1,
             evs1 ++ pp.2.2.2 ++ [Ev.deleteIgSettings, Ev.newPoster] ++ ini.2.2 ++
               lr.2.2.2,
             .raised e2)
        | none =>
            let pr := post_photo env.recoveryEnv LATEST_IMG_PATH caption lr.2.1 lr.2.2.1
            match pr.1 with
            | some e3 =>
                (pr.2.1, pr.2.2.1,
                 evs1 ++ pp.2.2.2 ++ [Ev.deleteIgSettings, Ev.newPoster] ++ ini.2.2 ++
                   lr.2.2.2 ++ pr.2.2.2,
                 .raised e3)
            | none =>
                record_success env.now link title pr.2.1 pr.2.2.1
                  (evs1 ++ pp.2.2.2 ++ [Ev.deleteIgSettings, Ev.newPoster] ++ ini.2.2 ++
                    lr.2.2.2 ++ pr.2.2.2)
      else (pp.2.1, pp.2.2.1, evs1 ++ pp.2.2.2, .raised e)

/-- The `try` body of one `while` iteration (lines 452–524). -/
def cycle_body (c : ClientEnv) (env : CycleEnv) (u p : String)
    (ps : PosterState) (w : W) : PosterState × W × List Ev × BodyExit :=
  match env.latestEntry with
  | .raised e => (ps, w, [Ev.fetchLatestEntry], .raised e)
  | .noEntry =>
      (ps, wlog env.now "⚠️ Nessun articolo nel feed." w,
       [Ev.fetchLatestEntry, Ev.sleepInterval], .earlyContinue)
  | .entry ent =>
      let link := pyStrip ent.link
      let title := clean_text env.soupText (pyStrip ent.title)
      if link = "" ∨ title = "" then
        (ps, wlog env.now "⚠️ Entry RSS incompleta (manca titolo/link)." w,
         [Ev.fetchLatestEntry, Ev.sleepInterval], .earlyContinue)
      else if link = get_last_posted_url w.files.lastPost then
        (ps, wlog env.now "ℹ️ Nessun nuovo articolo." w,
         [Ev.fetchLatestEntry, Ev.sleepInterval], .earlyContinue)
      else if env.imageUrl link = "" then
        (ps, wlog env.now "❌ Immagine in evidenza non trovata (og:image)." w,
         [Ev.fetchLatestEntry, Ev.fetchImageUrl link, Ev.sleepInterval],
         .earlyContinue)
      else
        let excerpt := cycle_excerpt env link
        let w1 := wlog env.now
          ("📝 Testo estratto: " ++ toString excerpt.length ++ " caratteri") w
        let caption := compose_caption title excerpt
        let evs0 := [Ev.fetchLatestEntry, Ev.fetchImageUrl link,
          Ev.fetchArticleExcerpt link] ++
          (if env.articleExcerpt link = "" then [Ev.fetchFeedExcerpt] else [])
        if env.downloadOk = false then
          (ps, wlog env.now "❌ Download immagine fallito." w1,
           evs0 ++ [Ev.downloadImage (env.imageUrl link), Ev.sleepInterval],
           .earlyContinue)
        else
          let w2 := wlog env.now "📤 Carico il post su Instagram..."
            (wlog env.now ("📸 Pubblico: " ++ title) w1)
          publish_stage c env u p link title caption
            (evs0 ++ [Ev.downloadImage (env.imageUrl link)]) ps w2

/-- One `while` iteration: the `try` body, the `except` cycle-boundary
handler, and the trailing sleep. -/
def run_cycle (c : ClientEnv) (env : CycleEnv) (u p : String)
    (ps : PosterState) (w : W) : PosterState × W × List Ev :=
  let res := cycle_body c env u p ps w
  match res.2.2.2 with
  | .earlyContinue => (res.1, res.2.1, res.2.2.1)
  | .completed => (res.1, res.2.1, res.2.2.1 ++ [Ev.sleepInterval])
  | .raised e =>
      (res.1,
       set_last_error (pyStr e)
         (wlog env.now ("❌ Errore ciclo: " ++ pyStr e) res.2.1),
       res.2.2.1 ++ [Ev.sleepInterval])

/-- Lines 426–447 of `bot_loop`: construct the poster, set the metrics,
run the login phase; `none` means the worker returned before entering the
polling loop. -/
def bot_prelude (c : ClientEnv) (now u p sid : String) (w : W) :
    Option PosterState × W × List Ev :=
  let ini := init_poster c w
  let w2 := set_last_error "" (set_running true ini.2.1)
  let lr := login c now u p sid ini.1 w2
  match lr.1 with
  | none => (some lr.2.1, lr.2.2.1, ini.2.2 ++ lr.2.2.2)
  | some e =>
      match e with
      | .twoFactor _ =>
          (none,
           set_running false (set_last_error "2FA required"
             (wlog now "❌ Instagram richiede 2FA." lr.2.2.1)),
           ini.2.2 ++ lr.2.2.2)
      | .challenge _ =>
          (none,
           set_running false (set_last_error "Challenge required"
             (wlog now "❌ Instagram ha richiesto una Challenge (verifica)." lr.2.2.1)),
           ini.2.2 ++ lr.2.2.2)
      | e2 =>
          (none,
           set_running false (set_last_error (pyStr e2)
             (wlog now ("❌ Errore login: " ++ pyStr e2) lr.2.2.1)),
           ini.2.2 ++ lr.2.2.2)

/-- Claim C1: when the newest feed entry's (stripped) link equals the
stored last-published marker, the cycle performs no image fetch, no
download and no publish call — whatever the title or body — and it sleeps
and re-polls without touching the marker or the running flag. -/
theorem claim_C1 (c : ClientEnv) (env : CycleEnv) (u p : String)
    (ps : PosterState) (w : W) (ent : Entry)
    (hent : env.latestEntry = .entry ent)
    (hdup : pyStrip ent.link = get_last_posted_url w.files.lastPost) :
    (run_cycle c env u p ps w).2.2.countP Ev.isFetchImage = 0 ∧
    (run_cycle c env u p ps w).2.2.countP Ev.isDownload = 0 ∧
    (run_cycle c env u p ps w).2.2.countP Ev.isUpload = 0 ∧
    Ev.sleepInterval ∈ (run_cycle c env u p ps w).2.2 ∧
    (run_cycle c env u p ps w).2.1.metrics.running = w.metrics.running ∧
    (run_cycle c env u p ps w).2.1.files.lastPost = w.files.lastPost := by
  unfold run_cycle
  simp only [cycle_body, hent]
  by_cases hlt : pyStrip ent.link = "" ∨ clean_text env.soupText (pyStrip ent.title) = ""
  · rw [if_pos hlt]
    exact ⟨rfl, rfl, rfl, by simp, rfl, rfl⟩
  · rw [if_neg hlt, if_pos hdup]
    exact ⟨rfl, rfl, rfl, by simp, rfl, rfl⟩

def envDup : CycleEnv :=
  {latestEntry := .entry {link := "https://site/a", title := "T"},
   soupText := fun s => s, imageUrl := fun _ => "http://img",
   articleExcerpt := fun _ => "body", entryExcerpt := "", downloadOk := true,
   now := "t", recoveryEnv := cOk}

def wDup : W :=
  {files := {filesEmpty with lastPost := .stored "https://site/a"},
   logs := [], metrics := mSample}

theorem claim_C1_witness :
    (run_cycle cOk envDup "u" "pw" psEmpty wDup).2.2.countP Ev.isUpload = 0 ∧
    Ev.sleepInterval ∈ (run_cycle cOk envDup "u" "pw" psEmpty wDup).2.2 :=
  ⟨(claim_C1 cOk envDup "u" "pw" psEmpty wDup
      {link := "https://site/a", title := "T"} rfl rfl).2.2.1,
   (claim_C1 cOk envDup "u" "pw" psEmpty wDup
      {link := "https://site/a", title := "T"} rfl rfl).2.2.2.1⟩

/-! ## Preservation and counting lemmas for the loop proofs -/

theorem post_photo_metrics (c : ClientEnv) (path cap : String)
    (ps : PosterState) (w : W) :
    (post_photo c path cap ps w).2.2.1.metrics = w.metrics ∧
    (post_photo c path cap ps w).2.2.1.files.lastPost = w.files.lastPost := by
  unfold post_photo
  split
  · exact ⟨rfl, rfl⟩
  · cases hc : c.upload <;> exact ⟨rfl, rfl⟩

theorem lwu_metrics (c : ClientEnv) (now u p : String) (ps : PosterState) (w : W) :
    (login_with_userpass c now u p ps w).2.2.1.metrics = w.metrics ∧
    (login_with_userpass c now u p ps w).2.2.1.files.lastPost = w.files.lastPost := by
  unfold login_with_userpass
  split
  · exact ⟨rfl, rfl⟩
  · cases hc : c.userpassLogin <;> exact ⟨rfl, rfl⟩

theorem init_poster_w (c : ClientEnv) (w : W) :
    (init_poster c w).2.1.metrics = w.metrics ∧
    (init_poster c w).2.1.files.lastPost = w.files.lastPost ∧
    (init_poster c w).2.1.files.igSettings = w.files.igSettings ∧
    (init_poster c w).2.1.logs = w.logs := by
  unfold init_poster
  cases hd : w.files.deviceSeed with
  | none =>
      cases hg : c.generatedDevice with
      | none => exact ⟨rfl, rfl, rfl, rfl⟩
      | some g => exact ⟨rfl, rfl, rfl, rfl⟩
  | some d => exact ⟨rfl, rfl, rfl, rfl⟩

theorem init_poster_events (c : ClientEnv) (w : W) (f : Ev → Bool)
    (h1 : f Ev.setUserAgent = false)
    (h2 : ∀ d, f (Ev.setDeviceSettings d) = false)
    (h3 : f Ev.genDevice = false)
    (h4 : ∀ d, f (Ev.saveDeviceSeed d) = false) :
    (init_poster c w).2.2.countP f = 0 := by
  unfold init_poster
  cases hd : w.files.deviceSeed with
  | none =>
      cases hg : c.generatedDevice with
      | none => simp [List.countP_cons, h1, h3]
      | some g => simp [List.countP_cons, h1, h3, h4 g]
  | some d => simp [List.countP_cons, h1, h2 d]

theorem publish_stage_running (c : ClientEnv) (env : CycleEnv)
    (u p link title cap : String) (evs1 : List Ev) (ps : PosterState) (w2 : W) :
    (publish_stage c env u p link title cap evs1 ps w2).2.1.metrics.running
      = w2.metrics.running := by
  rcases hpost : post_photo c LATEST_IMG_PATH cap ps w2 with ⟨r3, ps3, w3, evP⟩
  have h3 : w3.metrics = w2.metrics := by
    have h := (post_photo_metrics c LATEST_IMG_PATH cap ps w2).1
    rw [hpost] at h
    exact h
  cases r3 with
  | none =>
      simp only [publish_stage, hpost]
      show w3.metrics.running = w2.metrics.running
      exact congrArg Metrics.running h3
  | some e =>
      simp only [publish_stage, hpost]
      by_cases hcs : is_csrf_error e = true
      · rw [if_pos hcs]
        rcases hinit : init_poster env.recoveryEnv
            (delete_ig_settings (wlog env.now
              "⚠️ CSRF durante upload: resetto sessione instagrapi e riprovo 1 volta con user/pass..." w3))
          with ⟨ps4, w6, evI⟩
        have h6 : w6.metrics = w3.metrics := by
          have h := (init_poster_w env.recoveryEnv
            (delete_ig_settings (wlog env.now
              "⚠️ CSRF durante upload: resetto sessione instagrapi e riprovo 1 volta con user/pass..." w3))).1
          rw [hinit] at h
          exact h
        dsimp only
        rcases hlwu : login_with_userpass env.recoveryEnv env.now u p ps4 w6
          with ⟨rl, ps5, w7, evL⟩
        have h7 : w7.metrics = w6.metrics := by
          have h := (lwu_metrics env.recoveryEnv env.now u p ps4 w6).1
          rw [hlwu] at h
          exact h
        dsimp only
        cases rl with
        | some e2 =>
            exact congrArg Metrics.running (h7.trans (h6.trans h3))
        | none =>
            dsimp only
            rcases hpost2 : post_photo env.recoveryEnv LATEST_IMG_PATH cap ps5 w7
              with ⟨r8, ps8, w8, evP2⟩
            have h8 : w8.metrics = w7.metrics := by
              have h := (post_photo_metrics env.recoveryEnv LATEST_IMG_PATH cap ps5 w7).1
              rw [hpost2] at h
              exact h
            dsimp only
            cases r8 with
            | some e3 =>
                exact congrArg Metrics.running (h8.trans (h7.trans (h6.trans h3)))
            | none =>
                show w8.metrics.running = w2.metrics.running
                exact congrArg Metrics.running (h8.trans (h7.trans (h6.trans h3)))
      · rw [if_neg hcs]
        exact congrArg Metrics.running h3

theorem cycle_body_running (c : ClientEnv) (env : CycleEnv) (u p : String)
    (ps : PosterState) (w : W) :
    (cycle_body c env u p ps w).2.1.metrics.running = w.metrics.running := by
  cases he : env.latestEntry with
  | raised e =>
      simp only [cycle_body, he]
  | noEntry =>
      simp only [cycle_body, he]
      rfl
  | entry ent =>
      simp only [cycle_body, he]
      split
      · rfl
      · split
        · rfl
        · split
          · rfl
          · split
            · rfl
            · exact (publish_stage_running _ _ _ _ _ _ _ _ _ _).trans rfl

theorem init_countP_upload (c : ClientEnv) (w : W) :
    (init_poster c w).2.2.countP Ev.isUpload = 0 :=
  init_poster_events c w _ rfl (fun _ => rfl) rfl (fun _ => rfl)

theorem init_countP_cred (c : ClientEnv) (w : W) :
    (init_poster c w).2.2.countP Ev.isCredLogin = 0 :=
  init_poster_events c w _ rfl (fun _ => rfl) rfl (fun _ => rfl)

theorem init_filter_upload (c : ClientEnv) (w : W) :
    (init_poster c w).2.2.filter Ev.isUpload = [] := by
  unfold init_poster
  cases hd : w.files.deviceSeed with
  | none =>
      cases hg : c.generatedDevice with
      | none => rfl
      | some g => rfl
  | some d => rfl

/-- Under the guards of lines 452–501 all passing, the cycle body reaches
the upload attempt with the composed caption and the downloaded image. -/
theorem cycle_body_publish {c : ClientEnv} {env : CycleEnv} {u p : String}
    {ps : PosterState} {w : W} {ent : Entry}
    (hent : env.latestEntry = .entry ent)
    (hlt : ¬ (pyStrip ent.link = "" ∨ clean_text env.soupText (pyStrip ent.title) = ""))
    (hnew : ¬ pyStrip ent.link = get_last_posted_url w.files.lastPost)
    (himg : ¬ env.imageUrl (pyStrip ent.link) = "")
    (hdl : ¬ env.downloadOk = false) :
    cycle_body c env u p ps w =
      publish_stage c env u p (pyStrip ent.link)
        (clean_text env.soupText (pyStrip ent.title))
        (compose_caption (clean_text env.soupText (pyStrip ent.title))
          (cycle_excerpt env (pyStrip ent.link)))
        ([Ev.fetchLatestEntry, Ev.fetchImageUrl (pyStrip ent.link),
           Ev.fetchArticleExcerpt (pyStrip ent.link)] ++
         (if env.articleExcerpt (pyStrip ent.link) = "" then [Ev.fetchFeedExcerpt]
          else []) ++
         [Ev.downloadImage (env.imageUrl (pyStrip ent.link))])
        ps
        (wlog env.now "📤 Carico il post su Instagram..."
          (wlog env.now ("📸 Pubblico: " ++ clean_text env.soupText (pyStrip ent.title))
            (wlog env.now ("📝 Testo estratto: " ++
              toString (cycle_excerpt env (pyStrip ent.link)).length ++ " caratteri")
              w))) := by
  simp only [cycle_body, hent]
  rw [if_neg hlt, if_neg hnew, if_neg himg, if_neg hdl]

theorem run_cycle_running (c : ClientEnv) (env : CycleEnv) (u p : String)
    (ps : PosterState) (w : W) :
    (run_cycle c env u p ps w).2.1.metrics.running = w.metrics.running := by
  unfold run_cycle
  rcases hbody : cycle_body c env u p ps w with ⟨ps', w', evs, ex⟩
  have hw : w'.metrics.running = w.metrics.running := by
    have h := cycle_body_running c env u p ps w
    rw [hbody] at h
    exact h
  cases ex with
  | earlyContinue => exact hw
  | completed => exact hw
  | raised e => exact hw

/-- Claim C3: when the publish call fails with a CSRF (token-invalidation)
error the loop performs exactly one recovery — delete the persisted blob,
construct one fresh poster, force a credential login, retry the same
publish call exactly once — and a failure of the recovery login or of the
retry propagates as a generic cycle error; a non-CSRF publish failure is
re-raised with no retry in the same cycle. -/
theorem claim_C3 (c : ClientEnv) (env : CycleEnv) (u p : String)
    (ps : PosterState) (w : W) (ent : Entry)
    (hent : env.latestEntry = .entry ent)
    (hlink : pyStrip ent.link ≠ "")
    (htitle : clean_text env.soupText (pyStrip ent.title) ≠ "")
    (hnew : pyStrip ent.link ≠ get_last_posted_url w.files.lastPost)
    (himg : env.imageUrl (pyStrip ent.link) ≠ "")
    (hdl : env.downloadOk = true)
    (hlog : ps.loggedIn = true)
    (hu : u ≠ "") (hpw : p ≠ "") :
    (∀ e1, c.upload = some e1 → is_csrf_error e1 = false →
      (run_cycle c env u p ps w).2.2.countP Ev.isUpload = 1 ∧
      Ev.deleteIgSettings ∉ (run_cycle c env u p ps w).2.2 ∧
      Ev.newPoster ∉ (run_cycle c env u p ps w).2.2 ∧
      (run_cycle c env u p ps w).2.2.countP Ev.isCredLogin = 0 ∧
      (run_cycle c env u p ps w).2.1.metrics.lastError = pyStr e1 ∧
      Ev.sleepInterval ∈ (run_cycle c env u p ps w).2.2) ∧
    (∀ e1 e2, c.upload = some e1 → is_csrf_error e1 = true →
      env.recoveryEnv.userpassLogin = some e2 →
      (run_cycle c env u p ps w).2.2.countP Ev.isUpload = 1 ∧
      Ev.deleteIgSettings ∈ (run_cycle c env u p ps w).2.2 ∧
      Ev.newPoster ∈ (run_cycle c env u p ps w).2.2 ∧
      (run_cycle c env u p ps w).2.2.countP Ev.isCredLogin = 1 ∧
      (run_cycle c env u p ps w).2.1.metrics.lastError = pyStr e2 ∧
      Ev.sleepInterval ∈ (run_cycle c env u p ps w).2.2) ∧
    (∀ e1 e3, c.upload = some e1 → is_csrf_error e1 = true →
      env.recoveryEnv.userpassLogin = none →
      env.recoveryEnv.upload = some e3 →
      (run_cycle c env u p ps w).2.2.countP Ev.isUpload = 2 ∧
      (∃ cap, (run_cycle c env u p ps w).2.2.filter Ev.isUpload =
        [Ev.photoUpload LATEST_IMG_PATH cap, Ev.photoUpload LATEST_IMG_PATH cap]) ∧
      Ev.deleteIgSettings ∈ (run_cycle c env u p ps w).2.2 ∧
      (run_cycle c env u p ps w).2.2.countP Ev.isCredLogin = 1 ∧
      (run_cycle c env u p ps w).2.1.metrics.lastError = pyStr e3 ∧
      Ev.sleepInterval ∈ (run_cycle c env u p ps w).2.2) ∧
    (∀ e1, c.upload = some e1 → is_csrf_error e1 = true →
      env.recoveryEnv.userpassLogin = none →
      env.recoveryEnv.upload = none →
      (run_cycle c env u p ps w).2.2.countP Ev.isUpload = 2 ∧
      (run_cycle c env u p ps w).2.2.countP Ev.isCredLogin = 1 ∧
      Ev.deleteIgSettings ∈ (run_cycle c env u p ps w).2.2 ∧
      (run_cycle c env u p ps w).2.1.files.lastPost =
        save_last_posted_url (pyStrip ent.link) ∧
      Ev.sleepInterval ∈ (run_cycle c env u p ps w).2.2) := by
  have hlt : ¬ (pyStrip ent.link = "" ∨ clean_text env.soupText (pyStrip ent.title) = "") :=
    fun h => h.elim hlink htitle
  have hnup : ¬ (u = "" ∨ p = "") := fun h => h.elim hu hpw
  have hdl' : ¬ env.downloadOk = false := by simp [hdl]
  refine ⟨fun e1 hupl hcs => ?_, fun e1 e2 hupl hcs hl2 => ?_,
    fun e1 e3 hupl hcs hl2 hup2 => ?_, fun e1 hupl hcs hl2 hup2 => ?_⟩
  · simp only [run_cycle]
    rw [cycle_body_publish hent hlt hnew himg hdl']
    simp only [publish_stage, post_photo_fail hlog hupl]
    rw [if_neg (by simp [hcs])]
    by_cases hex : env.articleExcerpt (pyStrip ent.link) = ""
    · rw [if_pos hex]
      exact ⟨rfl, by simp, by simp, rfl, rfl, by simp⟩
    · rw [if_neg hex]
      exact ⟨rfl, by simp, by simp, rfl, rfl, by simp⟩
  · simp only [run_cycle]
    rw [cycle_body_publish hent hlt hnew himg hdl']
    simp only [publish_stage, post_photo_fail hlog hupl]
    rw [if_pos hcs]
    simp only [lwu_fail hnup hl2]
    by_cases hex : env.articleExcerpt (pyStrip ent.link) = ""
    · rw [if_pos hex]
      refine ⟨?_, by simp, by simp, ?_, rfl, by simp⟩
      · simp [List.countP_append, List.countP_cons, init_countP_upload, Ev.isUpload]
      · simp [List.countP_append, List.countP_cons, init_countP_cred, Ev.isCredLogin]
    · rw [if_neg hex]
      refine ⟨?_, by simp, by simp, ?_, rfl, by simp⟩
      · simp [List.countP_append, List.countP_cons, init_countP_upload, Ev.isUpload]
      · simp [List.countP_append, List.countP_cons, init_countP_cred, Ev.isCredLogin]
  · simp only [run_cycle]
    rw [cycle_body_publish hent hlt hnew himg hdl']
    simp only [publish_stage, post_photo_fail hlog hupl]
    rw [if_pos hcs]
    simp only [lwu_ok hnup hl2]
    simp only [post_photo, hup2]
    by_cases hex : env.articleExcerpt (pyStrip ent.link) = ""
    · rw [if_pos hex]
      refine ⟨?_, ⟨compose_caption (clean_text env.soupText (pyStrip ent.title))
        (cycle_excerpt env (pyStrip ent.link)), ?_⟩, by simp, ?_, rfl, by simp⟩
      · simp [List.countP_append, List.countP_cons, init_countP_upload, Ev.isUpload]
      · simp [List.filter_append, init_filter_upload, Ev.isUpload]
      · simp [List.countP_append, List.countP_cons, init_countP_cred, Ev.isCredLogin]
    · rw [if_neg hex]
      refine ⟨?_, ⟨compose_caption (clean_text env.soupText (pyStrip ent.title))
        (cycle_excerpt env (pyStrip ent.link)), ?_⟩, by simp, ?_, rfl, by simp⟩
      · simp [List.countP_append, List.countP_cons, init_countP_upload, Ev.isUpload]
      · simp [List.filter_append, init_filter_upload, Ev.isUpload]
      · simp [List.countP_append, List.countP_cons, init_countP_cred, Ev.isCredLogin]
  · simp only [run_cycle]
    rw [cycle_body_publish hent hlt hnew himg hdl']
    simp only [publish_stage, post_photo_fail hlog hupl]
    rw [if_pos hcs]
    simp only [lwu_ok hnup hl2]
    simp only [post_photo, hup2]
    simp only [record_success]
    by_cases hex : env.articleExcerpt (pyStrip ent.link) = ""
    · rw [if_pos hex]
      refine ⟨?_, ?_, by simp, rfl, by simp⟩
      · simp [List.countP_append, List.countP_cons, init_countP_upload, Ev.isUpload]
      · simp [List.countP_append, List.countP_cons, init_countP_cred, Ev.isCredLogin]
    · rw [if_neg hex]
      refine ⟨?_, ?_, by simp, rfl, by simp⟩
      · simp [List.countP_append, List.countP_cons, init_countP_upload, Ev.isUpload]
      · simp [List.countP_append, List.countP_cons, init_countP_cred, Ev.isCredLogin]

def cUploadFail : ClientEnv := {cOk with upload := some (.generic "boom")}

def envPub : CycleEnv :=
  {latestEntry := .entry {link := "https://site/b", title := "T"},
   soupText := fun s => s, imageUrl := fun _ => "http://img",
   articleExcerpt := fun _ => "body", entryExcerpt := "", downloadOk := true,
   now := "t", recoveryEnv := cOk}

def psLogged : PosterState := {loggedIn := true, settings := none, device := none}

theorem claim_C3_witness :
    (run_cycle cUploadFail envPub "u" "pw" psLogged wEmpty).2.2.countP Ev.isUpload = 1 ∧
    (run_cycle cUploadFail envPub "u" "pw" psLogged wEmpty).2.1.metrics.lastError
      = "boom" :=
  have h := (claim_C3 cUploadFail envPub "u" "pw" psLogged wEmpty
      {link := "https://site/b", title := "T"} rfl (by decide) (by decide)
      (by decide) (by decide) rfl rfl (by decide) (by decide)).1
    (.generic "boom") rfl (by decide)
  ⟨h.1, h.2.2.2.2.1⟩

/-- Claim C4: only login-phase failures terminate the worker —
`TwoFactorRequired`, `ChallengeRequired` and any other login error each set
`running = false` and record the reason in `last_error` before returning —
while a cycle body that raises is caught at the cycle boundary, logged,
recorded into `last_error`, and the loop sleeps and re-polls; no cycle ever
flips the running flag. -/
theorem claim_C4 (c : ClientEnv) (env : CycleEnv) (now u p sid : String)
    (ps ps' : PosterState) (w w' : W) (evs : List Ev) (e : PyErr) (m : String) :
    (w.files.igSettings = none → sid = "" → u ≠ "" → p ≠ "" →
      ((c.userpassLogin = some (.twoFactor m) →
        (bot_prelude c now u p sid w).1 = none ∧
        (bot_prelude c now u p sid w).2.1.metrics.running = false ∧
        (bot_prelude c now u p sid w).2.1.metrics.lastError = "2FA required") ∧
       (c.userpassLogin = some (.challenge m) →
        (bot_prelude c now u p sid w).1 = none ∧
        (bot_prelude c now u p sid w).2.1.metrics.running = false ∧
        (bot_prelude c now u p sid w).2.1.metrics.lastError = "Challenge required") ∧
       (c.userpassLogin = some (.generic m) →
        (bot_prelude c now u p sid w).1 = none ∧
        (bot_prelude c now u p sid w).2.1.metrics.running = false ∧
        (bot_prelude c now u p sid w).2.1.metrics.lastError = m) ∧
       (c.userpassLogin = none →
        (bot_prelude c now u p sid w).1.isSome = true ∧
        (bot_prelude c now u p sid w).2.1.metrics.running = true ∧
        (bot_prelude c now u p sid w).2.1.metrics.lastError = ""))) ∧
    ((run_cycle c env u p ps w).2.1.metrics.running = w.metrics.running) ∧
    (cycle_body c env u p ps w = (ps', w', evs, .raised e) →
      (run_cycle c env u p ps w).2.1.metrics.lastError = pyStr e ∧
      log_line env.now ("❌ Errore ciclo: " ++ pyStr e)
        ∈ (run_cycle c env u p ps w).2.1.logs ∧
      Ev.sleepInterval ∈ (run_cycle c env u p ps w).2.2) := by
  refine ⟨fun hig hsid hu hpw => ?_, run_cycle_running c env u p ps w,
    fun hbody => ?_⟩
  · have hnup : ¬ (u = "" ∨ p = "") := fun h => h.elim hu hpw
    have hig2 : (init_poster c w).2.1.files.igSettings = none :=
      ((init_poster_w c w).2.2.1).trans hig
    have h1 : try_restore_settings_session c now (init_poster c w).1
        (wlog now "🔐 Login Instagram in corso..."
          (set_last_error "" (set_running true (init_poster c w).2.1))) =
        (false, (init_poster c w).1,
         wlog now "🔐 Login Instagram in corso..."
           (set_last_error "" (set_running true (init_poster c w).2.1)), []) :=
      try_restore_absent hig2
    refine ⟨fun hl => ?_, fun hl => ?_, fun hl => ?_, fun hl => ?_⟩
    · simp only [bot_prelude]
      rw [login_of_restore_false_sid_empty h1 hsid (lwu_fail hnup hl)]
      exact ⟨rfl, rfl, rfl⟩
    · simp only [bot_prelude]
      rw [login_of_restore_false_sid_empty h1 hsid (lwu_fail hnup hl)]
      exact ⟨rfl, rfl, rfl⟩
    · simp only [bot_prelude]
      rw [login_of_restore_false_sid_empty h1 hsid (lwu_fail hnup hl)]
      exact ⟨rfl, rfl, rfl⟩
    · simp only [bot_prelude]
      rw [login_of_restore_false_sid_empty h1 hsid (lwu_ok hnup hl)]
      exact ⟨rfl, rfl, rfl⟩
  · simp only [run_cycle, hbody]
    exact ⟨rfl, mem_log_step_self _ _, by simp⟩

def c2FA : ClientEnv := {cOk with userpassLogin := some (.twoFactor "ask")}

def envRaise : CycleEnv := {envPub with latestEntry := .raised (.generic "net")}

theorem claim_C4_witness :
    (bot_prelude c2FA "t" "u" "pw" "" wEmpty).1 = none ∧
    (bot_prelude c2FA "t" "u" "pw" "" wEmpty).2.1.metrics.running = false ∧
    (run_cycle cOk envRaise "u" "pw" psEmpty wEmpty).2.1.metrics.lastError = "net" :=
  have hA := ((claim_C4 c2FA envRaise "t" "u" "pw" "" psEmpty psEmpty wEmpty wEmpty
      [] (.generic "x") "ask").1 rfl rfl (by decide) (by decide)).1 rfl
  have hB := (claim_C4 cOk envRaise "t" "u" "pw" "" psEmpty psEmpty wEmpty wEmpty
      [Ev.fetchLatestEntry] (.generic "net") "").2.2 rfl
  ⟨hA.1, hA.2.1, hB.1⟩

/-! ## Dictionary update lemmas and the `/start` handler -/

theorem find?_map_dset (d : Dict) (k v : String) (h : hasKey d k = true) :
    (d.map (fun pr => if pr.1 == k then (k, v) else pr)).find? (fun pr => pr.1 == k)
      = some (k, v) := by
  induction d with
  | nil => simp [hasKey] at h
  | cons pq tl ih =>
      by_cases hk : (pq.1 == k) = true
      · simp only [List.map_cons, if_pos hk]
        rw [List.find?_cons]
        simp
      · simp only [List.map_cons, if_neg hk]
        have h' : hasKey tl k = true := by
          simpa [hasKey, hk] using h
        have hkf : (pq.1 == k) = false := by simpa using hk
        rw [List.find?_cons, hkf]
        exact ih h'

theorem find?_map_dset_other (d : Dict) (k k' v : String)
    (hne : ¬ (k' == k) = true) :
    (d.map (fun pr => if pr.1 == k' then (k', v) else pr)).find? (fun pr => pr.1 == k)
      = d.find? (fun pr => pr.1 == k) := by
  induction d with
  | nil => rfl
  | cons pq tl ih =>
      by_cases hk' : (pq.1 == k') = true
      · have hpq : ¬ (pq.1 == k) = true := by
          have h1 : pq.1 = k' := by simpa using hk'
          simpa [h1] using hne
        simp only [List.map_cons, if_pos hk']
        have h1 : (k' == k) = false := by simpa using hne
        have h2 : (pq.1 == k) = false := by simpa using hpq
        rw [List.find?_cons, List.find?_cons, h1, h2]
        exact ih
      · simp only [List.map_cons, if_neg hk']
        by_cases hk : (pq.1 == k) = true
        · rw [List.find?_cons, List.find?_cons, hk]
        · have hkf : (pq.1 == k) = false := by simpa using hk
          rw [List.find?_cons, List.find?_cons, hkf]
          exact ih

theorem dget_dset_self (d : Dict) (k v dflt : String) :
    dget (dset d k v) k dflt = v := by
  unfold dset
  split
  · rename_i h
    unfold dget
    rw [find?_map_dset d k v h]
  · rename_i h
    unfold dget
    rw [List.find?_append]
    have hn : d.find? (fun pr => pr.1 == k) = none := by
      rw [List.find?_eq_none]
      intro x hx hpx
      have h2 : hasKey d k = true := List.any_eq_true.mpr ⟨x, hx, hpx⟩
      exact absurd h2 (by simpa using h)
    rw [hn]
    simp [List.find?_cons]

theorem dget_dset_other (d : Dict) (k k' v dflt : String) (hne : k ≠ k') :
    dget (dset d k' v) k dflt = dget d k dflt := by
  have hne' : ¬ (k' == k) = true := by simpa using Ne.symm hne
  unfold dset
  split
  · unfold dget
    rw [find?_map_dset_other d k k' v hne']
  · unfold dget
    rw [List.find?_append]
    have h1 : List.find? (fun pr => pr.1 == k) [(k', v)] = none := by
      simp [List.find?_cons, hne']
    rw [h1, Option.or_none]

/-- A form posted to `/start`. -/
structure StartForm where
  sessionid : String
  username : String
  password : String
  rss_url : String

/-- Python `a or b` on strings. -/
def pyOr (a b : String) : String :=
  if a = "" then b else a

/-- The `/start` handler (lines 659–694): merge the form with the stored
config, reject when username or password is missing, save the merged
config, then check whether a worker is alive and spawn one only if not. -/
def start_handler (form : StartForm) (alive : Bool) (now : String) (w : W) :
    W × List Ev :=
  let cfg := load_config w.files.config
  let sessionid := pyOr (pyStrip form.sessionid) (pyStrip (dget cfg "sessionid" ""))
  let username := pyOr (pyStrip form.username) (pyStrip (dget cfg "username" ""))
  let password := pyOr (pyStrip form.password) (pyStrip (dget cfg "password" ""))
  let rss_url := pyOr (pyStrip form.rss_url) (dget cfg "rss_url" DEFAULT_RSS)
  if username = "" ∨ password = "" then
    (wlog now "❌ Inserisci username e password (servono come fallback)." w, [])
  else
    let cfg2 := dset (dset (dset (dset cfg "sessionid" sessionid)
      "username" username) "password" password) "rss_url" rss_url
    let w1 := {w with files := {w.files with config := .stored (.jobj cfg2)}}
    if alive then
      (wlog now "ℹ️ Bot già in esecuzione." w1,
       [Ev.saveConfigFile cfg2, Ev.checkRunning])
    else
      (wlog now "▶️ Bot avviato." w1,
       [Ev.saveConfigFile cfg2, Ev.checkRunning,
        Ev.spawnWorker username password rss_url sessionid])

/-- Claim C9: whenever the merged username and password are non-empty, the
merged configuration is written to the config file before the
already-running check — so with a live worker the stored configuration is
still overwritten and only the worker spawn is skipped. -/
theorem claim_C9 (form : StartForm) (alive : Bool) (now : String) (w : W) :
    pyOr (pyStrip form.username)
      (pyStrip (dget (load_config w.files.config) "username" "")) ≠ "" →
    pyOr (pyStrip form.password)
      (pyStrip (dget (load_config w.files.config) "password" "")) ≠ "" →
    ∃ cfg2,
      (start_handler form alive now w).2 =
        [Ev.saveConfigFile cfg2, Ev.checkRunning] ++
        (if alive then []
         else [Ev.spawnWorker
            (pyOr (pyStrip form.username)
              (pyStrip (dget (load_config w.files.config) "username" "")))
            (pyOr (pyStrip form.password)
              (pyStrip (dget (load_config w.files.config) "password" "")))
            (pyOr (pyStrip form.rss_url)
              (dget (load_config w.files.config) "rss_url" DEFAULT_RSS))
            (pyOr (pyStrip form.sessionid)
              (pyStrip (dget (load_config w.files.config) "sessionid" "")))]) ∧
      (start_handler form alive now w).1.files.config = .stored (.jobj cfg2) ∧
      dget cfg2 "sessionid" "" =
        pyOr (pyStrip form.sessionid)
          (pyStrip (dget (load_config w.files.config) "sessionid" "")) ∧
      dget cfg2 "username" "" =
        pyOr (pyStrip form.username)
          (pyStrip (dget (load_config w.files.config) "username" "")) ∧
      dget cfg2 "password" "" =
        pyOr (pyStrip form.password)
          (pyStrip (dget (load_config w.files.config) "password" "")) ∧
      dget cfg2 "rss_url" "" =
        pyOr (pyStrip form.rss_url)
          (dget (load_config w.files.config) "rss_url" DEFAULT_RSS) ∧
      (alive = true →
        ∀ a b r s, Ev.spawnWorker a b r s ∉ (start_handler form alive now w).2) := by
  intro hu hpw
  refine ⟨dset (dset (dset (dset (load_config w.files.config) "sessionid"
      (pyOr (pyStrip form.sessionid)
        (pyStrip (dget (load_config w.files.config) "sessionid" ""))))
      "username" (pyOr (pyStrip form.username)
        (pyStrip (dget (load_config w.files.config) "username" ""))))
      "password" (pyOr (pyStrip form.password)
        (pyStrip (dget (load_config w.files.config) "password" ""))))
      "rss_url" (pyOr (pyStrip form.rss_url)
        (dget (load_config w.files.config) "rss_url" DEFAULT_RSS)), ?_, ?_, ?_, ?_, ?_, ?_, ?_⟩
  · simp only [start_handler]
    rw [if_neg (fun h => h.elim hu hpw)]
    cases alive
    · rw [if_neg (by simp)]
      rfl
    · rw [if_pos rfl]
      rfl
  · simp only [start_handler]
    rw [if_neg (fun h => h.elim hu hpw)]
    cases alive
    · rw [if_neg (by simp)]
      rfl
    · rw [if_pos rfl]
      rfl
  · rw [dget_dset_other _ _ _ _ _ (by decide),
      dget_dset_other _ _ _ _ _ (by decide),
      dget_dset_other _ _ _ _ _ (by decide), dget_dset_self]
  · rw [dget_dset_other _ _ _ _ _ (by decide),
      dget_dset_other _ _ _ _ _ (by decide), dget_dset_self]
  · rw [dget_dset_other _ _ _ _ _ (by decide), dget_dset_self]
  · rw [dget_dset_self]
  · intro ha a b r s
    subst ha
    simp only [start_handler]
    rw [if_neg (fun h => h.elim hu hpw), if_pos (by trivial)]
    simp

def formW : StartForm :=
  {sessionid := "", username := "bob", password := "pw", rss_url := ""}

theorem claim_C9_witness :
    ∃ cfg2,
      (start_handler formW true "t" wEmpty).2 =
        [Ev.saveConfigFile cfg2, Ev.checkRunning] ++ [] ∧
      (start_handler formW true "t" wEmpty).1.files.config = .stored (.jobj cfg2) :=
  have h := claim_C9 formW true "t" wEmpty (by decide) (by decide)
  match h with
  | ⟨cfg2, ht, hc, _⟩ => ⟨cfg2, ht, hc⟩

end IgBot

